import Mathlib

/-!
Shallow embedding of the neurodesk-mcp tool-dispatch layer
(src/mcp/src/server.py and src/mcp/src/neuroimaging_functions.py).

Each Python tool function is modelled as a pure Lean function from
  * a filesystem abstraction (the set of paths that exist),
  * the call arguments, and
  * the outcome of the single external-collaborator (niwrap) call
to a pair of
  * an ordered trace of side-effect events (directory creations and the
    external invocation, in program order), and
  * either a raised Python error or the returned response dictionary.

The `ext` argument (the external collaborator's behaviour on this call)
sits where the dropped `ctx` logging argument sits in the Python
signatures, so the trailing optional parameters keep the source's
default values.  Python dict/list values are embedded as the `PyVal`
type; the response dictionaries are built exactly as the source builds
them.  Exceptions are values of `PyErr`; a `try/except Exception` block
that re-raises `RuntimeError(msg)` is modelled by mapping any error
arising inside the block to `PyErr.runtimeError msg`.  Python float
parameters (only ever passed through, never computed with) are embedded
as rationals.
-/

/-- Embedded Python values appearing in parameter mappings and responses. -/
inductive PyVal where
  | vstr : String → PyVal
  | vint : Int → PyVal
  | vbool : Bool → PyVal
  | vfloat : ℚ → PyVal
  | vnone : PyVal
  | vlist : List PyVal → PyVal
  | vdict : List (String × PyVal) → PyVal
deriving Repr

/-- A Python dict with string keys, in insertion order. -/
abbrev PyDict := List (String × PyVal)

/-- Lookup of a key in an embedded dict (first binding wins, as in Python
dict literals with distinct keys). -/
def dictGet (d : List (String × PyVal)) (k : String) : Option PyVal :=
  (d.find? (fun p => p.1 == k)).map (fun p => p.2)

/-- Errors raised by the embedded layer: `FileNotFoundError` from input
validation, `RuntimeError` from the wrapping `except` handlers. -/
inductive PyErr where
  | fileNotFound : String → PyErr
  | runtimeError : String → PyErr
deriving Repr, DecidableEq

/-- Observable side effects of one tool call, in program order:
`mkdirP d` is `Path(d).mkdir(parents=True, exist_ok=True)`, and
`invoke f ps` is the single external-collaborator call `f(**ps)`. -/
inductive Event where
  | mkdirP : String → Event
  | invoke : String → List (String × PyVal) → Event

/-- The filesystem abstraction: the list of paths that currently exist
(`Path(p).exists()` is membership). -/
abbrev FS := List String

/-- Whether `Path(p).exists()`. -/
def pathExists (fs : FS) (p : String) : Bool :=
  List.contains fs p

/-- Result object of `niwrap.fsl.bet`: attribute `outfile`, and
`binary_mask` present or absent (`hasattr` probes it). -/
structure BetResult where
  outfile : String
  binary_mask : Option String

/-- Outcome of one external-collaborator call: the raised exception's
message, or the result object. -/
abbrev ExtCall (α : Type) := Except String α

/-- The fixed output directory used by the BET and FAST tools
(`server.py` lines 65 and 132). -/
def outputsDir : String := "/Users/hp/Desktop/neurodesk/data/outputs"

/-- Python `Path(a) / b` for the simple relative components used here. -/
def pjoin (a b : String) : String :=
  a ++ "/" ++ b

/-- Whether the whole call returned a response (no exception). -/
def returnedOk (r : Except PyErr PyDict) : Bool :=
  match r with
  | .ok _ => true
  | .error _ => false

/-- Whether the whole call raised a `RuntimeError`. -/
def raisedRuntimeError (r : Except PyErr PyDict) : Bool :=
  match r with
  | .error (.runtimeError _) => true
  | _ => false

/-- Whether the trace contains a directory-creation side effect. -/
def tookMkdir (tr : List Event) : Bool :=
  tr.any fun e =>
    match e with
    | .mkdirP _ => true
    | _ => false

/-- The `metadata` record of a successful response, as a dict. -/
def metaDict (r : Except PyErr PyDict) : Option PyDict :=
  (r.toOption.bind (fun d => dictGet d ("metadata"))).bind fun m =>
    match m with
    | .vdict md => some md
    | _ => none

/-- A field of the `metadata` record of a successful response. -/
def metaField (r : Except PyErr PyDict) (k : String) : Option PyVal :=
  (metaDict r).bind fun md => dictGet md k

/-- The `bet_params` mapping built by `fsl_bet_brain_extraction`
(server.py lines 72-79): base entries, plus `binary_mask` when
requested. -/
def betParams (input_file brain_image : String) (fractional_intensity : ℚ)
    (generate_binary_mask : Bool) : List (String × PyVal) :=
  let base : List (String × PyVal) :=
    [("infile", .vstr input_file),
     ("maskfile", .vstr brain_image),
     ("fractional_intensity", .vfloat fractional_intensity)]
  if generate_binary_mask then base ++ [("binary_mask", .vbool true)] else base

/-- Embedding of `fsl_bet_brain_extraction` (server.py lines 33-100).  Validates the
input path, then inside `try`: creates the outputs directory, builds
`bet_params`, calls `niwrap.fsl.bet(**bet_params)`, and shapes the
response; any exception in the block is re-raised as
`RuntimeError("BET processing failed: ...")`. -/
def fsl_bet_brain_extraction (fs : FS) (input_file : String)
    (ext : ExtCall BetResult)
    ( output_prefix : String := "brain_extracted")
    (fractional_intensity : ℚ := 0.5)
    (generate_binary_mask : Bool := true) :
    List Event × Except PyErr PyDict :=
  if pathExists fs input_file = false then
    ([], .error (.fileNotFound ("Input file not found: " ++ input_file)))
  else
    let output_dir := outputsDir
    let brain_image := pjoin output_dir ( output_prefix ++ ".nii.gz")
    let bet_params := betParams input_file brain_image fractional_intensity generate_binary_mask
    let trace := [Event.mkdirP output_dir, Event.invoke "niwrap.fsl.bet" bet_params]
    match ext with
    | .error msg =>
        (trace, .error (.runtimeError ("BET processing failed: " ++ msg)))
    | .ok result =>
        let output_data : PyDict :=
          [("brain_image", .vstr result.outfile),
           ("metadata", .vdict
             [("tool", .vstr "FSL BET"),
              ("parameters", .vdict bet_params),
              ("container", .vstr "FSL Docker container")])]
        let output_data :=
          match generate_binary_mask, result.binary_mask with
          | true, some m => output_data ++ [("brain_mask", .vstr m)]
          | _, _ => output_data
        (trace, .ok output_data)

/-- Result object of `niwrap.fsl.fast`: attribute `outfile`, and
`tissue_maps` / `bias_field` probed via `getattr` with defaults. -/
structure FastResult where
  outfile : String
  tissue_maps : Option (List String)
  bias_field : Option String

/-- The `fast_params` mapping built by `fsl_fast_segmentation`
(server.py lines 138-144). -/
def fastParams (input_file basename : String) (tissue_classes : Int) :
    List (String × PyVal) :=
  [("infile", .vstr input_file),
   ("basename", .vstr basename),
   ("classes", .vint tissue_classes),
   ("bias_field", .vbool true),
   ("probability_maps", .vbool true)]

/-- Embedding of `fsl_fast_segmentation` (server.py lines 103-164).  Validates the
input path, then inside `try`: creates the outputs directory, builds
`fast_params`, calls `niwrap.fsl.fast(**fast_params)`, and shapes the
response; any exception in the block is re-raised as
`RuntimeError("FAST processing failed: ...")`. -/
def fsl_fast_segmentation (fs : FS) (input_file : String)
    (ext : ExtCall FastResult)
    ( output_prefix : String := "segmented")
    (tissue_classes : Int := 3) :
    List Event × Except PyErr PyDict :=
  if pathExists fs input_file = false then
    ([], .error (.fileNotFound ("Input file not found: " ++ input_file)))
  else
    let output_dir := outputsDir
    let fast_params := fastParams input_file (pjoin output_dir output_prefix) tissue_classes
    let trace := [Event.mkdirP output_dir, Event.invoke "niwrap.fsl.fast" fast_params]
    match ext with
    | .error msg =>
        (trace, .error (.runtimeError ("FAST processing failed: " ++ msg)))
    | .ok result =>
        let output_data : PyDict :=
          [("segmented_image", .vstr result.outfile),
           ("tissue_maps",
             .vlist ((result.tissue_maps.getD []).map PyVal.vstr)),
           ("bias_field",
             match result.bias_field with
             | some b => .vstr b
             | none => .vnone),
           ("metadata", .vdict
             [("tool", .vstr "FSL FAST"),
              ("parameters", .vdict fast_params),
              ("tissue_classes", .vint tissue_classes)])]
        (trace, .ok output_data)

/-- Result object of `niwrap.fsl.flirt`: attribute `outfile`, and `omat`
probed via `getattr` with default `None`. -/
structure FlirtResult where
  outfile : String
  omat : Option String

/-- The `flirt_params` mapping built by `fsl_flirt_registration`
(server.py lines 204-210): the caller's paths and `dof` unchanged, plus
the fixed cost function. -/
def flirtParams (input_file reference_file output_file : String) (dof : Int) :
    List (String × PyVal) :=
  [("infile", .vstr input_file),
   ("reference", .vstr reference_file),
   ("outfile", .vstr output_file),
   ("dof", .vint dof),
   ("cost", .vstr "corratio")]

/-- Embedding of `fsl_flirt_registration` (server.py lines 167-229).  Validates the
input and reference paths in that order, then inside `try` (no directory
creation): builds `flirt_params`, calls
`niwrap.fsl.flirt(**flirt_params)`, and shapes the response; any
exception in the block is re-raised as
`RuntimeError("FLIRT processing failed: ...")`. -/
def fsl_flirt_registration (fs : FS) (input_file : String) (reference_file : String)
    (ext : ExtCall FlirtResult)
    (output_file : String := "registered.nii.gz")
    (dof : Int := 12) :
    List Event × Except PyErr PyDict :=
  if pathExists fs input_file = false then
    ([], .error (.fileNotFound ("Input file not found: " ++ input_file)))
  else if pathExists fs reference_file = false then
    ([], .error (.fileNotFound ("Reference file not found: " ++ reference_file)))
  else
    let flirt_params := flirtParams input_file reference_file output_file dof
    let trace := [Event.invoke "niwrap.fsl.flirt" flirt_params]
    match ext with
    | .error msg =>
        (trace, .error (.runtimeError ("FLIRT processing failed: " ++ msg)))
    | .ok result =>
        let output_data : PyDict :=
          [("registered_image", .vstr result.outfile),
           ("transformation_matrix",
             match result.omat with
             | some m => .vstr m
             | none => .vnone),
           ("metadata", .vdict
             [("tool", .vstr "FSL FLIRT"),
              ("parameters", .vdict flirt_params),
              ("dof", .vint dof)])]
        (trace, .ok output_data)

/-- Result object of `niwrap.mrtrix3.dwi2fod`: attribute `fod`. -/
structure Dwi2fodResult where
  fod : String

/-- The `dwi2fod_params` mapping built by `mrtrix_dwi2fod`
(server.py lines 269-274). -/
def dwi2fodParams (algorithm dwi_file response_file output_fod : String) :
    List (String × PyVal) :=
  [("algorithm", .vstr algorithm),
   ("dwi", .vstr dwi_file),
   ("response", .vstr response_file),
   ("fod", .vstr output_fod)]

/-- Embedding of `mrtrix_dwi2fod` (server.py lines 232-292).  Validates the DWI and
response paths in that order, then inside `try` (no directory creation):
builds `dwi2fod_params`, calls `niwrap.mrtrix3.dwi2fod(**dwi2fod_params)`,
and shapes the response; any exception in the block is re-raised as
`RuntimeError("dwi2fod processing failed: ...")`. -/
def mrtrix_dwi2fod (fs : FS) (dwi_file : String) (response_file : String)
    (ext : ExtCall Dwi2fodResult)
    (output_fod : String := "wmfod.mif")
    (algorithm : String := "csd") :
    List Event × Except PyErr PyDict :=
  if pathExists fs dwi_file = false then
    ([], .error (.fileNotFound ("DWI file not found: " ++ dwi_file)))
  else if pathExists fs response_file = false then
    ([], .error (.fileNotFound ("Response file not found: " ++ response_file)))
  else
    let dwi2fod_params := dwi2fodParams algorithm dwi_file response_file output_fod
    let trace := [Event.invoke "niwrap.mrtrix3.dwi2fod" dwi2fod_params]
    match ext with
    | .error msg =>
        (trace, .error (.runtimeError ("dwi2fod processing failed: " ++ msg)))
    | .ok result =>
        let output_data : PyDict :=
          [("fod_image", .vstr result.fod),
           ("metadata", .vdict
             [("tool", .vstr "MRTrix3 dwi2fod"),
              ("parameters", .vdict (dwi2fodParams algorithm dwi_file response_file output_fod)),
              ("algorithm", .vstr algorithm)])]
        (trace, .ok output_data)

/-- The default FreeSurfer subjects directory (server.py line 299). -/
def freesurferSubjectsDir : String := "/Users/hp/Desktop/neurodesk/data/freesurfer_subjects"

/-- The `recon_params` mapping built by `freesurfer_recon_all`
(server.py lines 330-335). -/
def reconParams (input_file subject_id subjects_dir : String) :
    List (String × PyVal) :=
  [("input_file", .vstr input_file),
   ("subject_id", .vstr subject_id),
   ("subjects_dir", .vstr subjects_dir),
   ("all", .vbool true)]

/-- Embedding of `freesurfer_recon_all` (server.py lines 295-367).  Validates the
input path, then creates the subjects directory (outside the `try`
block), then inside `try`: builds `recon_params`, calls
`niwrap.freesurfer.recon_all(**recon_params)` (whose result object is
never used), and shapes the response from the path convention
`subjects_dir/subject_id/{surf,mri}/...`; any exception in the block is
re-raised as `RuntimeError("FreeSurfer recon-all failed: ...")`. -/
def freesurfer_recon_all (fs : FS) (input_file : String) (subject_id : String)
    (ext : ExtCall Unit)
    (subjects_dir : String := freesurferSubjectsDir) :
    List Event × Except PyErr PyDict :=
  if pathExists fs input_file = false then
    ([], .error (.fileNotFound ("Input file not found: " ++ input_file)))
  else
    let recon_params := reconParams input_file subject_id subjects_dir
    let trace := [Event.mkdirP subjects_dir,
                  Event.invoke "niwrap.freesurfer.recon_all" recon_params]
    match ext with
    | .error msg =>
        (trace, .error (.runtimeError ("FreeSurfer recon-all failed: " ++ msg)))
    | .ok _ =>
        let subject_dir := pjoin subjects_dir subject_id
        let output_data : PyDict :=
          [("subject_directory", .vstr subject_dir),
           ("surfaces", .vdict
             [("left_pial", .vstr (pjoin (pjoin subject_dir "surf") "lh.pial")),
              ("right_pial", .vstr (pjoin (pjoin subject_dir "surf") "rh.pial")),
              ("left_white", .vstr (pjoin (pjoin subject_dir "surf") "lh.white")),
              ("right_white", .vstr (pjoin (pjoin subject_dir "surf") "rh.white"))]),
           ("volumes", .vdict
             [("brain", .vstr (pjoin (pjoin subject_dir "mri") "brain.mgz")),
              ("aseg", .vstr (pjoin (pjoin subject_dir "mri") "aseg.mgz")),
              ("aparc", .vstr (pjoin (pjoin subject_dir "mri") "aparc+aseg.mgz"))]),
           ("metadata", .vdict
             [("tool", .vstr "FreeSurfer recon-all"),
              ("subject_id", .vstr subject_id),
              ("subjects_dir", .vstr subjects_dir)])]
        (trace, .ok output_data)

/-- The per-session workspace root (server.py line 372). -/
def workspaceRoot : String := "/tmp/neuroimaging_workspace"

/-- Whether path `p` is a direct child of directory `dir`
(what `Path(dir).glob("*")` enumerates, given the existing paths). -/
def isDirectChild (dir p : String) : Bool :=
  p.startsWith (dir ++ "/") && !((p.drop (dir ++ "/").length).contains '/')

/-- Embedding of `get_workspace_info` (server.py lines 370-380): the read-only
workspace resource.  Returns the not-found message when the session
directory does not exist, otherwise a listing of the files directly
under it; it performs no filesystem modification (its event trace is
always empty). -/
def get_workspace_info (fs : FS) (session_id : String) : List Event × String :=
  let workspace_path := pjoin workspaceRoot session_id
  if pathExists fs workspace_path = false then
    ([], "Workspace " ++ session_id ++ " not found")
  else
    let files := (fs.filter (fun p => isDirectChild workspace_path p)).map
      (fun p => p.drop (workspace_path ++ "/").length)
    let file_list := String.intercalate "\n" (files.map (fun n => "- " ++ n))
    ([], "Workspace " ++ session_id ++ ":\nFiles:\n" ++ file_list)

/-- The `brain_extraction` guide text (server.py lines 387-399). -/
def guideBrainExtraction : String :=
  "\n        Brain extraction is the first step in most neuroimaging analyses. Here\x27s a typical workflow:\n\n        1. Start with a T1-weighted anatomical image\n        2. Use FSL BET with appropriate fractional intensity (0.3-0.7)\n        3. Visual quality control of extraction results\n        4. Proceed with further analysis on brain-extracted image\n\n        Parameters to consider:\n        - Lower fractional intensity (0.3) for more conservative extraction\n        - Higher fractional intensity (0.7) for more aggressive extraction\n        - Default (0.5) works well for most cases\n        "

/-- The `preprocessing` guide text (server.py lines 401-410). -/
def guidePreprocessing : String :=
  "\n        Standard T1 preprocessing pipeline:\n\n        1. Brain extraction (BET)\n        2. Tissue segmentation (FAST)\n        3. Spatial normalization (FLIRT to MNI space)\n        4. Quality control at each step\n\n        This pipeline prepares data for group-level statistical analysis.\n        "

/-- The `diffusion` guide text (server.py lines 412-422). -/
def guideDiffusion : String :=
  "\n        Diffusion MRI analysis workflow:\n\n        1. Preprocessing: denoising, motion correction, eddy current correction\n        2. Response function estimation\n        3. Fiber orientation distribution estimation (dwi2fod)\n        4. Tractography generation\n        5. Connectome construction\n\n        Requires DWI data with b-values and gradient directions.\n        "

/-- The fallback message of `guides.get` (server.py line 425). -/
def guideUnknown : String :=
  "Unknown analysis type. Available types: brain_extraction, preprocessing, diffusion"

/-- Embedding of `neuroimaging_analysis_guide` (server.py lines 383-425):
`guides.get(analysis_type, fallback)` over the three-key dict literal,
embedded as the equivalent key comparison chain. -/
def neuroimaging_analysis_guide (analysis_type : String) : String :=
  if analysis_type = "brain_extraction" then guideBrainExtraction
  else if analysis_type = "preprocessing" then guidePreprocessing
  else if analysis_type = "diffusion" then guideDiffusion
  else guideUnknown

/-- Embedding of `fsl_bet_brain_extraction_raw` (neuroimaging_functions.py lines
23-71).  After a successful `niwrap.fsl.bet` call, the `output_data`
literal references the name `bet_params`, which is not defined anywhere
in this function (the call passed keyword arguments directly), so
evaluating it raises `NameError("name 'bet_params' is not defined")`,
which the handler wraps into the BET `RuntimeError`. -/
def fsl_bet_brain_extraction_raw (fs : FS) (input_file : String)
    (ext : ExtCall BetResult)
    ( output_prefix : String := "brain_extracted")
    (fractional_intensity : ℚ := 0.5)
    (generate_binary_mask : Bool := true) :
    List Event × Except PyErr PyDict :=
  if pathExists fs input_file = false then
    ([], .error (.fileNotFound ("Input file not found: " ++ input_file)))
  else
    let output_dir := outputsDir
    let brain_image := pjoin output_dir ( output_prefix ++ ".nii.gz")
    let kwargs : List (String × PyVal) :=
      [("infile", .vstr input_file),
       ("maskfile", .vstr brain_image),
       ("fractional_intensity", .vfloat fractional_intensity),
       ("binary_mask", .vbool generate_binary_mask)]
    let trace := [Event.mkdirP output_dir, Event.invoke "niwrap.fsl.bet" kwargs]
    match ext with
    | .error msg =>
        (trace, .error (.runtimeError ("BET processing failed: " ++ msg)))
    | .ok _result =>
        (trace, .error (.runtimeError
          ("BET processing failed: name \x27bet_params\x27 is not defined")))

/-- Embedding of `fsl_fast_segmentation_raw` (neuroimaging_functions.py lines
73-119).  After a successful `niwrap.fsl.fast` call, the `output_data`
literal references the undefined name `fast_params`, raising a
`NameError` which the handler wraps into the FAST `RuntimeError`. -/
def fsl_fast_segmentation_raw (fs : FS) (input_file : String)
    (ext : ExtCall FastResult)
    ( output_prefix : String := "segmented")
    (tissue_classes : Int := 3) :
    List Event × Except PyErr PyDict :=
  if pathExists fs input_file = false then
    ([], .error (.fileNotFound ("Input file not found: " ++ input_file)))
  else
    let output_dir := outputsDir
    let kwargs : List (String × PyVal) :=
      [("in_files", .vlist [.vstr input_file]),
       ("number_classes", .vint tissue_classes),
       ("out_basename", .vstr (pjoin output_dir output_prefix)),
       ("output_biasfield", .vbool true),
       ("segments", .vbool true)]
    let trace := [Event.mkdirP output_dir, Event.invoke "niwrap.fsl.fast" kwargs]
    match ext with
    | .error msg =>
        (trace, .error (.runtimeError ("FAST processing failed: " ++ msg)))
    | .ok _result =>
        (trace, .error (.runtimeError
          ("FAST processing failed: name \x27fast_params\x27 is not defined")))

/-- Embedding of `fsl_flirt_registration_raw` (neuroimaging_functions.py lines
121-168).  After a successful `niwrap.fsl.flirt` call, the
`output_data` literal references the undefined name `flirt_params`,
raising a `NameError` which the handler wraps into the FLIRT
`RuntimeError`. -/
def fsl_flirt_registration_raw (fs : FS) (input_file : String)
    (reference_file : String)
    (ext : ExtCall FlirtResult)
    (output_file : String := "registered.nii.gz")
    (dof : Int := 12) :
    List Event × Except PyErr PyDict :=
  if pathExists fs input_file = false then
    ([], .error (.fileNotFound ("Input file not found: " ++ input_file)))
  else if pathExists fs reference_file = false then
    ([], .error (.fileNotFound ("Reference file not found: " ++ reference_file)))
  else
    let kwargs : List (String × PyVal) :=
      [("in_file", .vstr input_file),
       ("reference", .vstr reference_file),
       ("out_file", .vstr output_file),
       ("out_matrix_file", .vstr (output_file.replace ".nii.gz" ".mat")),
       ("dof", .vint dof),
       ("cost", .vstr "corratio")]
    let trace := [Event.invoke "niwrap.fsl.flirt" kwargs]
    match ext with
    | .error msg =>
        (trace, .error (.runtimeError ("FLIRT processing failed: " ++ msg)))
    | .ok _result =>
        (trace, .error (.runtimeError
          ("FLIRT processing failed: name \x27flirt_params\x27 is not defined")))

/-- C1: for every tool call, if a required input path does not exist the
call raises a `FileNotFoundError` naming the missing path, with an empty
side-effect trace: no destination directory is created and the external
collaborator is not invoked. -/
theorem missing_input_fails_before_any_side_effect
    (fs : FS) (inf ref pre outf subj sdir algo : String)
    (q : ℚ) (b : Bool) (n dof : Int)
    (extB : ExtCall BetResult) (extFa : ExtCall FastResult)
    (extFl : ExtCall FlirtResult) (extD : ExtCall Dwi2fodResult)
    (extR : ExtCall Unit) :
    (pathExists fs inf = false →
      fsl_bet_brain_extraction fs inf extB pre q b
        = ([], .error (.fileNotFound ("Input file not found: " ++ inf)))) ∧
    (pathExists fs inf = false →
      fsl_fast_segmentation fs inf extFa pre n
        = ([], .error (.fileNotFound ("Input file not found: " ++ inf)))) ∧
    (pathExists fs inf = false →
      fsl_flirt_registration fs inf ref extFl outf dof
        = ([], .error (.fileNotFound ("Input file not found: " ++ inf)))) ∧
    (pathExists fs inf = true → pathExists fs ref = false →
      fsl_flirt_registration fs inf ref extFl outf dof
        = ([], .error (.fileNotFound ("Reference file not found: " ++ ref)))) ∧
    (pathExists fs inf = false →
      mrtrix_dwi2fod fs inf ref extD outf algo
        = ([], .error (.fileNotFound ("DWI file not found: " ++ inf)))) ∧
    (pathExists fs inf = true → pathExists fs ref = false →
      mrtrix_dwi2fod fs inf ref extD outf algo
        = ([], .error (.fileNotFound ("Response file not found: " ++ ref)))) ∧
    (pathExists fs inf = false →
      freesurfer_recon_all fs inf subj extR sdir
        = ([], .error (.fileNotFound ("Input file not found: " ++ inf)))) := by
  refine ⟨?_, ?_, ?_, ?_, ?_, ?_, ?_⟩ <;> intros h₁
  · simp [fsl_bet_brain_extraction, h₁]
  · simp [fsl_fast_segmentation, h₁]
  · simp [fsl_flirt_registration, h₁]
  · intro h₂; simp [fsl_flirt_registration, h₁, h₂]
  · simp [mrtrix_dwi2fod, h₁]
  · intro h₂; simp [mrtrix_dwi2fod, h₁, h₂]
  · simp [freesurfer_recon_all, h₁]

/-- Witness for C1: concrete missing-input BET call and concrete
missing-DWI dwi2fod call, each failing with the named path and an empty
trace. -/
theorem missing_input_fails_before_any_side_effect_witness :
    fsl_bet_brain_extraction [] ("/missing/t1.nii.gz") (.ok ⟨"/o", none⟩)
      = ([], .error (.fileNotFound ("Input file not found: /missing/t1.nii.gz"))) ∧
    mrtrix_dwi2fod [("/resp.txt")] ("/missing/dwi.mif") ("/resp.txt")
        (.ok ⟨"/f.mif"⟩)
      = ([], .error (.fileNotFound ("DWI file not found: /missing/dwi.mif"))) := by
  constructor
  · exact (missing_input_fails_before_any_side_effect [] ("/missing/t1.nii.gz")
      ("r") ("brain_extracted") ("o") ("s") ("d") ("a") 0.5 true 3 12
      (.ok ⟨"/o", none⟩) (.ok ⟨"/s", none, none⟩) (.ok ⟨"/r", none⟩)
      (.ok ⟨"/f.mif"⟩) (.ok ())).1 (by decide)
  · exact (missing_input_fails_before_any_side_effect [("/resp.txt")]
      ("/missing/dwi.mif") ("/resp.txt") ("p") ("wmfod.mif") ("s") ("d") ("csd")
      0.5 true 3 12 (.ok ⟨"/o", none⟩) (.ok ⟨"/s", none, none⟩)
      (.ok ⟨"/r", none⟩) (.ok ⟨"/f.mif"⟩) (.ok ())).2.2.2.2.1 (by decide)

/-- Counterexample to C2: a successful cortical-reconstruction call whose
metadata record has the tool field but no parameters field at all (it
records only `subject_id` and `subjects_dir`), so the claim fails for the
recon-all tool. -/
theorem recon_all_metadata_lacks_parameters_field :
    returnedOk (freesurfer_recon_all [("/t1.nii.gz")] ("/t1.nii.gz") ("sub01")
      (.ok ()) ("/subs")).2 = true ∧
    metaField (freesurfer_recon_all [("/t1.nii.gz")] ("/t1.nii.gz") ("sub01")
      (.ok ()) ("/subs")).2 ("tool") = some (.vstr "FreeSurfer recon-all") ∧
    metaField (freesurfer_recon_all [("/t1.nii.gz")] ("/t1.nii.gz") ("sub01")
      (.ok ()) ("/subs")).2 ("parameters") = none := by
  refine ⟨rfl, rfl, rfl⟩

/-- C2 (amended): for every successful BET, FAST, FLIRT and dwi2fod call
the response metadata's tool field is the tool's display name and its
parameters field is exactly the mapping passed to the external
collaborator (the one carried by the invoke event); the recon-all
metadata carries the tool field but no parameters field, recording
`subject_id` and `subjects_dir` instead. -/
theorem successful_metadata_tool_and_parameters
    (fs : FS) (inf ref pre outf subj sdir algo : String)
    (q : ℚ) (b : Bool) (n dof : Int)
    (rB : BetResult) (rFa : FastResult) (rFl : FlirtResult) (rD : Dwi2fodResult) :
    (pathExists fs inf = true →
      metaField (fsl_bet_brain_extraction fs inf (.ok rB) pre q b).2 ("tool")
          = some (.vstr "FSL BET") ∧
      metaField (fsl_bet_brain_extraction fs inf (.ok rB) pre q b).2 ("parameters")
          = some (.vdict (betParams inf (pjoin outputsDir (pre ++ ".nii.gz")) q b)) ∧
      (fsl_bet_brain_extraction fs inf (.ok rB) pre q b).1
          = [Event.mkdirP outputsDir,
             Event.invoke "niwrap.fsl.bet"
               (betParams inf (pjoin outputsDir (pre ++ ".nii.gz")) q b)]) ∧
    (pathExists fs inf = true →
      metaField (fsl_fast_segmentation fs inf (.ok rFa) pre n).2 ("tool")
          = some (.vstr "FSL FAST") ∧
      metaField (fsl_fast_segmentation fs inf (.ok rFa) pre n).2 ("parameters")
          = some (.vdict (fastParams inf (pjoin outputsDir pre) n)) ∧
      (fsl_fast_segmentation fs inf (.ok rFa) pre n).1
          = [Event.mkdirP outputsDir,
             Event.invoke "niwrap.fsl.fast" (fastParams inf (pjoin outputsDir pre) n)]) ∧
    (pathExists fs inf = true → pathExists fs ref = true →
      metaField (fsl_flirt_registration fs inf ref (.ok rFl) outf dof).2 ("tool")
          = some (.vstr "FSL FLIRT") ∧
      metaField (fsl_flirt_registration fs inf ref (.ok rFl) outf dof).2 ("parameters")
          = some (.vdict (flirtParams inf ref outf dof)) ∧
      (fsl_flirt_registration fs inf ref (.ok rFl) outf dof).1
          = [Event.invoke "niwrap.fsl.flirt" (flirtParams inf ref outf dof)]) ∧
    (pathExists fs inf = true → pathExists fs ref = true →
      metaField (mrtrix_dwi2fod fs inf ref (.ok rD) outf algo).2 ("tool")
          = some (.vstr "MRTrix3 dwi2fod") ∧
      metaField (mrtrix_dwi2fod fs inf ref (.ok rD) outf algo).2 ("parameters")
          = some (.vdict (dwi2fodParams algo inf ref outf)) ∧
      (mrtrix_dwi2fod fs inf ref (.ok rD) outf algo).1
          = [Event.invoke "niwrap.mrtrix3.dwi2fod" (dwi2fodParams algo inf ref outf)]) ∧
    (pathExists fs inf = true →
      metaField (freesurfer_recon_all fs inf subj (.ok ()) sdir).2 ("tool")
          = some (.vstr "FreeSurfer recon-all") ∧
      metaField (freesurfer_recon_all fs inf subj (.ok ()) sdir).2 ("parameters")
          = none ∧
      metaField (freesurfer_recon_all fs inf subj (.ok ()) sdir).2 ("subject_id")
          = some (.vstr subj) ∧
      metaField (freesurfer_recon_all fs inf subj (.ok ()) sdir).2 ("subjects_dir")
          = some (.vstr sdir) ∧
      (freesurfer_recon_all fs inf subj (.ok ()) sdir).1
          = [Event.mkdirP sdir,
             Event.invoke "niwrap.freesurfer.recon_all" (reconParams inf subj sdir)]) := by
  refine ⟨?_, ?_, ?_, ?_, ?_⟩
  · intro h₁
    obtain ⟨o, bm⟩ := rB
    cases b <;> cases bm <;>
      simp [fsl_bet_brain_extraction, h₁, metaField, metaDict, dictGet,
            Except.toOption]
  · intro h₁
    simp [fsl_fast_segmentation, h₁, metaField, metaDict, dictGet, Except.toOption]
  · intro h₁ h₂
    simp [fsl_flirt_registration, h₁, h₂, metaField, metaDict, dictGet,
          Except.toOption]
  · intro h₁ h₂
    simp [mrtrix_dwi2fod, h₁, h₂, metaField, metaDict, dictGet, Except.toOption]
  · intro h₁
    simp [freesurfer_recon_all, h₁, metaField, metaDict, dictGet, Except.toOption]

/-- Witness for C2 (amended): a concrete successful FLIRT call whose
metadata names the tool and repeats exactly the forwarded parameter
mapping. -/
theorem successful_metadata_tool_and_parameters_witness :
    metaField (fsl_flirt_registration [("/in.nii.gz"), ("/ref.nii.gz")]
        ("/in.nii.gz") ("/ref.nii.gz") (.ok ⟨"/o.nii.gz", none⟩)
        ("out.nii.gz") 12).2 ("tool") = some (.vstr "FSL FLIRT") ∧
    metaField (fsl_flirt_registration [("/in.nii.gz"), ("/ref.nii.gz")]
        ("/in.nii.gz") ("/ref.nii.gz") (.ok ⟨"/o.nii.gz", none⟩)
        ("out.nii.gz") 12).2 ("parameters")
      = some (.vdict (flirtParams ("/in.nii.gz") ("/ref.nii.gz") ("out.nii.gz") 12)) ∧
    (fsl_flirt_registration [("/in.nii.gz"), ("/ref.nii.gz")]
        ("/in.nii.gz") ("/ref.nii.gz") (.ok ⟨"/o.nii.gz", none⟩)
        ("out.nii.gz") 12).1
      = [Event.invoke "niwrap.fsl.flirt"
          (flirtParams ("/in.nii.gz") ("/ref.nii.gz") ("out.nii.gz") 12)] := by
  exact (successful_metadata_tool_and_parameters
      [("/in.nii.gz"), ("/ref.nii.gz")] ("/in.nii.gz") ("/ref.nii.gz")
      ("p") ("out.nii.gz") ("s") ("d") ("csd") 0.5 true 3 12
      ⟨"/o", none⟩ ⟨"/s", none, none⟩ ⟨"/o.nii.gz", none⟩ ⟨"/f"⟩).2.2.1
    (by decide) (by decide)

/-- Counterexample to C3: a BET call whose validation fails raises the
bare `FileNotFoundError` — validation errors are raised before the
`try` block, so they are not caught and re-signaled as a RuntimeError
with "processing failed" context. -/
theorem validation_error_escapes_unwrapped :
    (fsl_bet_brain_extraction [] ("/missing.nii.gz") (.ok ⟨"/o", none⟩)).2
      = .error (.fileNotFound ("Input file not found: /missing.nii.gz")) ∧
    raisedRuntimeError
      (fsl_bet_brain_extraction [] ("/missing.nii.gz") (.ok ⟨"/o", none⟩)).2 = false := by
  refine ⟨rfl, rfl⟩

/-- C3 (amended): for every tool call, an exception raised by the
external collaborator invocation (or by the result shaping after it) is
caught and re-raised as a distinct `RuntimeError` whose message carries
tool context and embeds the original cause — "<tool> processing failed:
<cause>" for BET, FAST, FLIRT and dwi2fod, and "FreeSurfer recon-all
failed: <cause>" for recon-all; validation errors are raised before the
`try` block and propagate unwrapped as `FileNotFoundError`. -/
theorem external_failure_wrapped_with_tool_context
    (fs : FS) (inf ref pre outf subj sdir algo m : String)
    (q : ℚ) (b : Bool) (n dof : Int) :
    (pathExists fs inf = true →
      (fsl_bet_brain_extraction fs inf (.error m) pre q b).2
        = .error (.runtimeError ("BET processing failed: " ++ m))) ∧
    (pathExists fs inf = true →
      (fsl_fast_segmentation fs inf (.error m) pre n).2
        = .error (.runtimeError ("FAST processing failed: " ++ m))) ∧
    (pathExists fs inf = true → pathExists fs ref = true →
      (fsl_flirt_registration fs inf ref (.error m) outf dof).2
        = .error (.runtimeError ("FLIRT processing failed: " ++ m))) ∧
    (pathExists fs inf = true → pathExists fs ref = true →
      (mrtrix_dwi2fod fs inf ref (.error m) outf algo).2
        = .error (.runtimeError ("dwi2fod processing failed: " ++ m))) ∧
    (pathExists fs inf = true →
      (freesurfer_recon_all fs inf subj (.error m) sdir).2
        = .error (.runtimeError ("FreeSurfer recon-all failed: " ++ m))) ∧
    (pathExists fs inf = false →
      raisedRuntimeError (fsl_bet_brain_extraction fs inf (.error m) pre q b).2
        = false ∧
      raisedRuntimeError (fsl_fast_segmentation fs inf (.error m) pre n).2
        = false ∧
      raisedRuntimeError (fsl_flirt_registration fs inf ref (.error m) outf dof).2
        = false ∧
      raisedRuntimeError (mrtrix_dwi2fod fs inf ref (.error m) outf algo).2
        = false ∧
      raisedRuntimeError (freesurfer_recon_all fs inf subj (.error m) sdir).2
        = false) := by
  refine ⟨?_, ?_, ?_, ?_, ?_, ?_⟩ <;> intro h₁
  · simp [fsl_bet_brain_extraction, h₁]
  · simp [fsl_fast_segmentation, h₁]
  · intro h₂; simp [fsl_flirt_registration, h₁, h₂]
  · intro h₂; simp [mrtrix_dwi2fod, h₁, h₂]
  · simp [freesurfer_recon_all, h₁]
  · simp [fsl_bet_brain_extraction, fsl_fast_segmentation,
          fsl_flirt_registration, mrtrix_dwi2fod, freesurfer_recon_all,
          raisedRuntimeError, h₁]

/-- Witness for C3 (amended): a concrete dwi2fod call whose external
invocation fails with a container error is re-raised as the wrapped
RuntimeError embedding that cause. -/
theorem external_failure_wrapped_with_tool_context_witness :
    (mrtrix_dwi2fod [("/dwi.mif"), ("/resp.txt")] ("/dwi.mif") ("/resp.txt")
        (.error ("container exited with status 1")) ("wmfod.mif") ("csd")).2
      = .error (.runtimeError
          ("dwi2fod processing failed: container exited with status 1")) := by
  exact (external_failure_wrapped_with_tool_context
      [("/dwi.mif"), ("/resp.txt")] ("/dwi.mif") ("/resp.txt") ("p")
      ("wmfod.mif") ("s") ("d") ("csd") ("container exited with status 1")
      0.5 true 3 12).2.2.2.1 (by decide) (by decide)

/-- C4: the raw brain-extraction, segmentation and registration
functions reference the undefined names `bet_params`, `fast_params` and
`flirt_params` when building their response metadata, so even when the
external collaborator call succeeds they raise the wrapped "processing
failed" RuntimeError (wrapping the NameError); consequently no input
whatsoever makes them return a response. -/
theorem raw_functions_never_return_successfully
    (fs : FS) (inf ref pre outf : String) (q : ℚ) (b : Bool) (n dof : Int)
    (rB : BetResult) (rFa : FastResult) (rFl : FlirtResult)
    (extB : ExtCall BetResult) (extFa : ExtCall FastResult)
    (extFl : ExtCall FlirtResult) :
    (pathExists fs inf = true →
      (fsl_bet_brain_extraction_raw fs inf (.ok rB) pre q b).2
        = .error (.runtimeError
            ("BET processing failed: name \x27bet_params\x27 is not defined"))) ∧
    (pathExists fs inf = true →
      (fsl_fast_segmentation_raw fs inf (.ok rFa) pre n).2
        = .error (.runtimeError
            ("FAST processing failed: name \x27fast_params\x27 is not defined"))) ∧
    (pathExists fs inf = true → pathExists fs ref = true →
      (fsl_flirt_registration_raw fs inf ref (.ok rFl) outf dof).2
        = .error (.runtimeError
            ("FLIRT processing failed: name \x27flirt_params\x27 is not defined"))) ∧
    returnedOk (fsl_bet_brain_extraction_raw fs inf extB pre q b).2 = false ∧
    returnedOk (fsl_fast_segmentation_raw fs inf extFa pre n).2 = false ∧
    returnedOk (fsl_flirt_registration_raw fs inf ref extFl outf dof).2 = false := by
  refine ⟨?_, ?_, ?_, ?_, ?_, ?_⟩
  · intro h₁; simp [fsl_bet_brain_extraction_raw, h₁]
  · intro h₁; simp [fsl_fast_segmentation_raw, h₁]
  · intro h₁ h₂; simp [fsl_flirt_registration_raw, h₁, h₂]
  · cases hp : pathExists fs inf <;> rcases extB with m | r <;>
      simp [fsl_bet_brain_extraction_raw, hp, returnedOk]
  · cases hp : pathExists fs inf <;> rcases extFa with m | r <;>
      simp [fsl_fast_segmentation_raw, hp, returnedOk]
  · cases hp : pathExists fs inf <;> cases hr : pathExists fs ref <;>
      rcases extFl with m | r <;>
      simp [fsl_flirt_registration_raw, hp, hr, returnedOk]

/-- Witness for C4: with the input files present and the external calls
succeeding, each of the three raw functions still raises the wrapped
NameError-carrying RuntimeError. -/
theorem raw_functions_never_return_successfully_witness :
    (fsl_bet_brain_extraction_raw [("/t1.nii.gz"), ("/ref.nii.gz")]
        ("/t1.nii.gz") (.ok ⟨"/o", some ("/m")⟩)).2
      = .error (.runtimeError
          ("BET processing failed: name \x27bet_params\x27 is not defined")) ∧
    (fsl_flirt_registration_raw [("/t1.nii.gz"), ("/ref.nii.gz")]
        ("/t1.nii.gz") ("/ref.nii.gz") (.ok ⟨"/o", some ("/m.mat")⟩)).2
      = .error (.runtimeError
          ("FLIRT processing failed: name \x27flirt_params\x27 is not defined")) := by
  constructor
  · exact (raw_functions_never_return_successfully
      [("/t1.nii.gz"), ("/ref.nii.gz")] ("/t1.nii.gz") ("/ref.nii.gz")
      ("brain_extracted") ("registered.nii.gz") 0.5 true 3 12
      ⟨"/o", some ("/m")⟩ ⟨"/s", none, none⟩ ⟨"/o", some ("/m.mat")⟩
      (.ok ⟨"/o", some ("/m")⟩) (.ok ⟨"/s", none, none⟩)
      (.ok ⟨"/o", some ("/m.mat")⟩)).1 (by decide)
  · exact (raw_functions_never_return_successfully
      [("/t1.nii.gz"), ("/ref.nii.gz")] ("/t1.nii.gz") ("/ref.nii.gz")
      ("brain_extracted") ("registered.nii.gz") 0.5 true 3 12
      ⟨"/o", some ("/m")⟩ ⟨"/s", none, none⟩ ⟨"/o", some ("/m.mat")⟩
      (.ok ⟨"/o", some ("/m")⟩) (.ok ⟨"/s", none, none⟩)
      (.ok ⟨"/o", some ("/m.mat")⟩)).2.2.1 (by decide) (by decide)

/-- Counterexample to C5: a concrete successful FLIRT call and a
concrete successful dwi2fod call whose side-effect traces contain no
directory creation at all — these two invokers never ensure any
destination directory exists. -/
theorem flirt_and_dwi2fod_create_no_directory :
    returnedOk (fsl_flirt_registration [("/in.nii.gz"), ("/ref.nii.gz")]
      ("/in.nii.gz") ("/ref.nii.gz") (.ok ⟨"/o.nii.gz", none⟩)).2 = true ∧
    tookMkdir (fsl_flirt_registration [("/in.nii.gz"), ("/ref.nii.gz")]
      ("/in.nii.gz") ("/ref.nii.gz") (.ok ⟨"/o.nii.gz", none⟩)).1 = false ∧
    returnedOk (mrtrix_dwi2fod [("/dwi.mif"), ("/resp.txt")]
      ("/dwi.mif") ("/resp.txt") (.ok ⟨"/f.mif"⟩)).2 = true ∧
    tookMkdir (mrtrix_dwi2fod [("/dwi.mif"), ("/resp.txt")]
      ("/dwi.mif") ("/resp.txt") (.ok ⟨"/f.mif"⟩)).1 = false := by
  refine ⟨rfl, rfl, rfl, rfl⟩

/-- C5 (amended): of the five tool invokers, BET, FAST and recon-all
create their destination directory before the external collaborator is
invoked (the mkdir event precedes the invoke event in the trace), while
FLIRT and dwi2fod perform no directory creation on any call. -/
theorem destination_directory_before_invocation
    (fs : FS) (inf ref pre outf subj sdir algo : String)
    (q : ℚ) (b : Bool) (n dof : Int)
    (extB : ExtCall BetResult) (extFa : ExtCall FastResult)
    (extFl : ExtCall FlirtResult) (extD : ExtCall Dwi2fodResult)
    (extR : ExtCall Unit) :
    (pathExists fs inf = true →
      (fsl_bet_brain_extraction fs inf extB pre q b).1
        = [Event.mkdirP outputsDir,
           Event.invoke "niwrap.fsl.bet"
             (betParams inf (pjoin outputsDir (pre ++ ".nii.gz")) q b)]) ∧
    (pathExists fs inf = true →
      (fsl_fast_segmentation fs inf extFa pre n).1
        = [Event.mkdirP outputsDir,
           Event.invoke "niwrap.fsl.fast" (fastParams inf (pjoin outputsDir pre) n)]) ∧
    (pathExists fs inf = true →
      (freesurfer_recon_all fs inf subj extR sdir).1
        = [Event.mkdirP sdir,
           Event.invoke "niwrap.freesurfer.recon_all" (reconParams inf subj sdir)]) ∧
    tookMkdir (fsl_flirt_registration fs inf ref extFl outf dof).1 = false ∧
    tookMkdir (mrtrix_dwi2fod fs inf ref extD outf algo).1 = false := by
  refine ⟨?_, ?_, ?_, ?_, ?_⟩
  · intro h₁; rcases extB with m | r <;> simp [fsl_bet_brain_extraction, h₁]
  · intro h₁; rcases extFa with m | r <;> simp [fsl_fast_segmentation, h₁]
  · intro h₁; rcases extR with m | r <;> simp [freesurfer_recon_all, h₁]
  · cases hp : pathExists fs inf <;> cases hr : pathExists fs ref <;>
      rcases extFl with m | r <;>
      simp [fsl_flirt_registration, hp, hr, tookMkdir]
  · cases hp : pathExists fs inf <;> cases hr : pathExists fs ref <;>
      rcases extD with m | r <;>
      simp [mrtrix_dwi2fod, hp, hr, tookMkdir]

/-- Witness for C5 (amended): a concrete BET call creates the outputs
directory and then performs the external invocation, in that order. -/
theorem destination_directory_before_invocation_witness :
    (fsl_bet_brain_extraction [("/t1.nii.gz")] ("/t1.nii.gz")
        (.ok ⟨"/o", none⟩)).1
      = [Event.mkdirP outputsDir,
         Event.invoke "niwrap.fsl.bet"
           (betParams ("/t1.nii.gz")
             (pjoin outputsDir ("brain_extracted.nii.gz")) 0.5 true)] := by
  exact (destination_directory_before_invocation [("/t1.nii.gz")]
      ("/t1.nii.gz") ("r") ("brain_extracted") ("o") ("s") ("d") ("csd")
      0.5 true 3 12 (.ok ⟨"/o", none⟩) (.ok ⟨"/s", none, none⟩)
      (.ok ⟨"/r", none⟩) (.ok ⟨"/f"⟩) (.ok ())).1 (by decide)

/-- C6: every successful cortical-reconstruction call returns surface
paths (lh/rh pial and white under `surf`) and volume paths (brain.mgz,
aseg.mgz, aparc+aseg.mgz under `mri`) built purely from the
subjects-directory argument and subject identifier by the fixed naming
convention — the filesystem contents (beyond input validation) and the
external result play no part in them. -/
theorem recon_all_paths_follow_naming_convention
    (fs : FS) (inf subj sdir : String)
    (h : pathExists fs inf = true) :
    ((freesurfer_recon_all fs inf subj (.ok ()) sdir).2.toOption.bind
        (fun d => dictGet d ("surfaces")))
      = some (.vdict
          [("left_pial", .vstr (pjoin (pjoin (pjoin sdir subj) "surf") "lh.pial")),
           ("right_pial", .vstr (pjoin (pjoin (pjoin sdir subj) "surf") "rh.pial")),
           ("left_white", .vstr (pjoin (pjoin (pjoin sdir subj) "surf") "lh.white")),
           ("right_white", .vstr (pjoin (pjoin (pjoin sdir subj) "surf") "rh.white"))]) ∧
    ((freesurfer_recon_all fs inf subj (.ok ()) sdir).2.toOption.bind
        (fun d => dictGet d ("volumes")))
      = some (.vdict
          [("brain", .vstr (pjoin (pjoin (pjoin sdir subj) "mri") "brain.mgz")),
           ("aseg", .vstr (pjoin (pjoin (pjoin sdir subj) "mri") "aseg.mgz")),
           ("aparc", .vstr (pjoin (pjoin (pjoin sdir subj) "mri") "aparc+aseg.mgz"))]) ∧
    ((freesurfer_recon_all fs inf subj (.ok ()) sdir).2.toOption.bind
        (fun d => dictGet d ("subject_directory")))
      = some (.vstr (pjoin sdir subj)) := by
  refine ⟨?_, ?_, ?_⟩ <;>
    simp [freesurfer_recon_all, h, dictGet, Except.toOption]

/-- Witness for C6: the concrete predicted paths for subject `sub01`
under `/subs`, produced without those files existing anywhere. -/
theorem recon_all_paths_follow_naming_convention_witness :
    ((freesurfer_recon_all [("/t1.nii.gz")] ("/t1.nii.gz") ("sub01")
        (.ok ()) ("/subs")).2.toOption.bind
        (fun d => dictGet d ("surfaces")))
      = some (.vdict
          [("left_pial", .vstr "/subs/sub01/surf/lh.pial"),
           ("right_pial", .vstr "/subs/sub01/surf/rh.pial"),
           ("left_white", .vstr "/subs/sub01/surf/lh.white"),
           ("right_white", .vstr "/subs/sub01/surf/rh.white")]) := by
  have h := (recon_all_paths_follow_naming_convention [("/t1.nii.gz")]
    ("/t1.nii.gz") ("sub01") ("/subs") (by decide)).1
  simpa [pjoin] using h

/-- C7: the registration tool performs no validation of the
degrees-of-freedom value — for every integer dof, including values
outside {6, 7, 9, 12}, the mapping forwarded to the external
collaborator carries that dof unchanged and the call proceeds. -/
theorem flirt_forwards_any_dof_unvalidated
    (fs : FS) (inf ref outf : String) (dof : Int) (ext : ExtCall FlirtResult)
    (h₁ : pathExists fs inf = true) (h₂ : pathExists fs ref = true) :
    (fsl_flirt_registration fs inf ref ext outf dof).1
      = [Event.invoke "niwrap.fsl.flirt" (flirtParams inf ref outf dof)] ∧
    dictGet (flirtParams inf ref outf dof) ("dof") = some (.vint dof) ∧
    (∀ r : FlirtResult, ext = .ok r →
      returnedOk (fsl_flirt_registration fs inf ref ext outf dof).2 = true) := by
  refine ⟨?_, ?_, ?_⟩
  · rcases ext with m | r <;> simp [fsl_flirt_registration, h₁, h₂]
  · simp [flirtParams, dictGet]
  · rintro r rfl; simp [fsl_flirt_registration, h₁, h₂, returnedOk]

/-- Witness for C7: dof 5, a value outside {6, 7, 9, 12}, is forwarded
unchanged and the call still succeeds. -/
theorem flirt_forwards_any_dof_unvalidated_witness :
    (fsl_flirt_registration [("/in.nii.gz"), ("/ref.nii.gz")] ("/in.nii.gz")
        ("/ref.nii.gz") (.ok ⟨"/o", none⟩) ("out.nii.gz") 5).1
      = [Event.invoke "niwrap.fsl.flirt"
          (flirtParams ("/in.nii.gz") ("/ref.nii.gz") ("out.nii.gz") 5)] ∧
    dictGet (flirtParams ("/in.nii.gz") ("/ref.nii.gz") ("out.nii.gz") 5) ("dof")
      = some (.vint 5) := by
  have h := flirt_forwards_any_dof_unvalidated [("/in.nii.gz"), ("/ref.nii.gz")]
    ("/in.nii.gz") ("/ref.nii.gz") ("out.nii.gz") 5 (.ok ⟨"/o", none⟩)
    (by decide) (by decide)
  exact ⟨h.1, h.2.1⟩

/-- C8: with both images present, the registration call made with the
default degrees-of-freedom succeeds using dof 12 and cost "corratio",
and its metadata records dof = 12 and parameter cost = "corratio". -/
theorem flirt_default_call_dof12_corratio
    (fs : FS) (inf ref : String) (r : FlirtResult)
    (h₁ : pathExists fs inf = true) (h₂ : pathExists fs ref = true) :
    returnedOk (fsl_flirt_registration fs inf ref (.ok r)).2 = true ∧
    metaField (fsl_flirt_registration fs inf ref (.ok r)).2 ("dof")
      = some (.vint 12) ∧
    metaField (fsl_flirt_registration fs inf ref (.ok r)).2 ("parameters")
      = some (.vdict (flirtParams inf ref ("registered.nii.gz") 12)) ∧
    dictGet (flirtParams inf ref ("registered.nii.gz") 12) ("cost")
      = some (.vstr "corratio") ∧
    dictGet (flirtParams inf ref ("registered.nii.gz") 12) ("dof")
      = some (.vint 12) := by
  refine ⟨?_, ?_, ?_, ?_, ?_⟩ <;>
    simp [fsl_flirt_registration, h₁, h₂, returnedOk, metaField, metaDict,
          dictGet, flirtParams, Except.toOption]

/-- Witness for C8: the concrete default registration call records
dof 12 and cost corratio. -/
theorem flirt_default_call_dof12_corratio_witness :
    metaField (fsl_flirt_registration [("/in.nii.gz"), ("/ref.nii.gz")]
        ("/in.nii.gz") ("/ref.nii.gz") (.ok ⟨"/o", none⟩)).2 ("dof")
      = some (.vint 12) ∧
    dictGet (flirtParams ("/in.nii.gz") ("/ref.nii.gz") ("registered.nii.gz") 12)
        ("cost") = some (.vstr "corratio") := by
  have h := flirt_default_call_dof12_corratio [("/in.nii.gz"), ("/ref.nii.gz")]
    ("/in.nii.gz") ("/ref.nii.gz") ⟨"/o", none⟩ (by decide) (by decide)
  exact ⟨h.2.1, h.2.2.2.1⟩

/-- C9: the analysis-guidance function is a total function that maps the
three known keys to their fixed non-empty guide texts and every other
string to the fixed unknown-type fallback message. -/
theorem analysis_guide_total_with_fallback (s : String) :
    neuroimaging_analysis_guide ("brain_extraction") = guideBrainExtraction ∧
    neuroimaging_analysis_guide ("preprocessing") = guidePreprocessing ∧
    neuroimaging_analysis_guide ("diffusion") = guideDiffusion ∧
    guideBrainExtraction ≠ "" ∧ guidePreprocessing ≠ "" ∧ guideDiffusion ≠ "" ∧
    (s ≠ "brain_extraction" → s ≠ "preprocessing" → s ≠ "diffusion" →
      neuroimaging_analysis_guide s = guideUnknown) := by
  refine ⟨rfl, rfl, rfl, by decide, by decide, by decide, ?_⟩
  intro h₁ h₂ h₃
  simp [neuroimaging_analysis_guide, h₁, h₂, h₃]

/-- Witness for C9: an unknown key yields the fallback message. -/
theorem analysis_guide_total_with_fallback_witness :
    neuroimaging_analysis_guide ("tractography") = guideUnknown := by
  exact (analysis_guide_total_with_fallback ("tractography")).2.2.2.2.2.2
    (by decide) (by decide) (by decide)

/-- C10: the workspace resource never performs a filesystem modification
(its side-effect trace is empty for every session identifier and
filesystem), and when the session's workspace directory does not exist
it returns the "Workspace ... not found" string instead of raising. -/
theorem workspace_resource_read_only (fs : FS) (sid : String) :
    (get_workspace_info fs sid).1 = [] ∧
    (pathExists fs (pjoin workspaceRoot sid) = false →
      (get_workspace_info fs sid).2 = "Workspace " ++ sid ++ " not found") := by
  constructor
  · cases hp : pathExists fs (pjoin workspaceRoot sid) <;>
      simp [get_workspace_info, hp]
  · intro h; simp [get_workspace_info, h]

/-- Witness for C10: a session with no workspace directory gets the
not-found message and an empty side-effect trace. -/
theorem workspace_resource_read_only_witness :
    (get_workspace_info [] ("sess1")).1 = [] ∧
    (get_workspace_info [] ("sess1")).2 = "Workspace sess1 not found" := by
  have h := workspace_resource_read_only [] ("sess1")
  exact ⟨h.1, h.2 (by decide)⟩
